import Mathlib

/-!
Shallow embedding of the conversation-orchestration core of the
SellMe pen-sales training server: the per-session state kept by
`handleChatConnection` (src/realtime/chatHandler.ts) together with the
handlers for the upstream realtime events it reacts to, and the
post-processing done by the classifier wrappers `detectSaleOutcome` and
`detectUserSaleOutcome` (src/services/saleAnalyzer.ts).

The upstream language-model call itself is external: each handler that
invokes the classifier takes the upstream service response as an explicit
parameter (`UpstreamResponse`), and the analyzer definitions reproduce the
parsing, defaulting and error-recovery logic the source applies to it.
-/

namespace SellMe

/-- JavaScript `String.prototype.toLowerCase` restricted to ASCII letters,
which is all the source's phrase lists and trigger phrases use. -/
def lowerChar (c : Char) : Char :=
  if 65 ≤ c.toNat ∧ c.toNat ≤ 90 then Char.ofNat (c.toNat + 32) else c

def lowerStr (s : String) : String := String.mk (s.toList.map lowerChar)

/-- Substring test on character lists (JavaScript `String.prototype.includes`). -/
def listContainsSub (hay needle : List Char) : Bool :=
  match hay with
  | [] => needle.isEmpty
  | _ :: t => needle.isPrefixOf hay || listContainsSub t needle

/-- JavaScript `hay.includes(needle)`. -/
def strIncludes (hay needle : String) : Bool :=
  listContainsSub hay.toList needle.toList

/-! ## saleAnalyzer.ts -/

/-- `SaleOutcome` from src/services/saleAnalyzer.ts. -/
inductive SaleOutcome where
  | SALE_CONFIRMED
  | SALE_DENIED
  | UNDECIDED
deriving DecidableEq, Repr

/-- `AnalysisResult` from src/services/saleAnalyzer.ts. -/
structure AnalysisResult where
  outcome : SaleOutcome
  confidence : Nat
  reasoning : String
  keyPhrase : Option String
  popupHeadline : Option String
  popupMessage : Option String
deriving DecidableEq, Repr

/-- One message as handed to the classifier wrappers: the
`{ role, content }` projection of a stored message. -/
structure RoleContent where
  role : String
  content : String
deriving DecidableEq, Repr

/-- Outcome of the external chat-completions call made by the analyzer:
the call can throw (network error), the returned content can fail
`JSON.parse`, or it parses to a JSON object whose fields may each be
missing. -/
inductive UpstreamResponse where
  | netError
  | badJson
  | parsed (outcome : Option SaleOutcome) (confidence : Option Nat)
      (reasoning : Option String) (keyPhrase : Option String)
      (popupHeadline : Option String) (popupMessage : Option String)
deriving DecidableEq, Repr

/-- The value both analyzer functions return from their catch blocks. -/
def defaultErrorResult : AnalysisResult :=
  { outcome := .UNDECIDED
    confidence := 0
    reasoning := "Analysis error - defaulting to undecided"
    keyPhrase := none
    popupHeadline := none
    popupMessage := none }

/-- The window of messages whose text `analyzeWithAI` sends upstream:
`messages.slice(-10)`. -/
def conversationTextWindow (messages : List RoleContent) : List RoleContent :=
  messages.drop (messages.length - 10)

/-- The window of messages whose text `detectUserSaleOutcome` sends
upstream: `conversationHistory.slice(-12)`. -/
def userSellsTextWindow (messages : List RoleContent) : List RoleContent :=
  messages.drop (messages.length - 12)

/-- `analyzeWithAI` from src/services/saleAnalyzer.ts: applies the
`|| 'UNDECIDED'`, `|| 0`, `|| 'Unable to analyze'` defaults to the parsed
JSON, and resolves any thrown error to `defaultErrorResult`.  The verdict
itself comes from the external service, so it is a function of the
response, not of the transcript window. -/
def analyzeWithAI (messages : List RoleContent) (resp : UpstreamResponse) :
    AnalysisResult :=
  match resp with
  | .netError => defaultErrorResult
  | .badJson => defaultErrorResult
  | .parsed o c r k h m =>
      { outcome := o.getD .UNDECIDED
        confidence := c.getD 0
        reasoning := r.getD "Unable to analyze"
        keyPhrase := k
        popupHeadline := h
        popupMessage := m }

/-- `detectSaleOutcome` from src/services/saleAnalyzer.ts (AI SELLS mode). -/
def detectSaleOutcome (conversationHistory : List RoleContent)
    (resp : UpstreamResponse) : AnalysisResult :=
  analyzeWithAI conversationHistory resp

/-- `detectUserSaleOutcome` from src/services/saleAnalyzer.ts (USER SELLS
mode): same parsing defaults and same catch-block fallback. -/
def detectUserSaleOutcome (conversationHistory : List RoleContent)
    (difficulty : String) (resp : UpstreamResponse) : AnalysisResult :=
  match resp with
  | .netError => defaultErrorResult
  | .badJson => defaultErrorResult
  | .parsed o c r k h m =>
      { outcome := o.getD .UNDECIDED
        confidence := c.getD 0
        reasoning := r.getD "Unable to analyze"
        keyPhrase := k
        popupHeadline := h
        popupMessage := m }

/-! ## chatHandler.ts: session state -/

/-- The phase strings `handleChatConnection` assigns to `currentPhase`. -/
inductive Phase where
  | greeting
  | discovery
  | positioning
  | closing
  | completed
  | pitching
deriving DecidableEq, Repr

def phaseStr : Phase → String
  | .greeting => "greeting"
  | .discovery => "discovery"
  | .positioning => "positioning"
  | .closing => "closing"
  | .completed => "completed"
  | .pitching => "pitching"

/-- Rank of a phase under the order GREETING < {DISCOVERY, PITCHING} <
POSITIONING < CLOSING < COMPLETED. -/
def phaseRank : Phase → Nat
  | .greeting => 0
  | .discovery => 1
  | .pitching => 1
  | .positioning => 2
  | .closing => 3
  | .completed => 4

/-- The `salesMode` configuration value (`config?.salesMode || 'ai_sells'`). -/
inductive Mode where
  | ai_sells
  | user_sells
deriving DecidableEq, Repr

/-- The values written to the session record's `outcome` column. -/
inductive SessionOutcome where
  | sale_made
  | no_sale
  | abandoned
deriving DecidableEq, Repr

/-- A persisted `Message` row (`logMessage` in chatHandler.ts): role,
content and the phase snapshot taken at logging time. -/
structure ChatMsg where
  role : String
  content : String
  phase : String
deriving DecidableEq, Repr

def toRoleContent (m : ChatMsg) : RoleContent := ⟨m.role, m.content⟩

/-- Per-session state: the local variables of `handleChatConnection`
(`currentPhase`, `isWaitingForUserTranscript`,
`bufferedAssistantTranscript`) together with the database rows the
handler reads and writes (the session record's `currentPhase`, `outcome`,
`saleConfirmed`, `endedAt` columns and the persisted messages in creation
order).  The local `currentPhase` variable and the persisted phase column
are tracked separately because the commit paths update only the column. -/
structure SessionState where
  currentPhase : Phase
  dbPhase : Phase
  outcome : Option SessionOutcome
  saleConfirmed : Option Bool
  endedAt : Bool
  isWaitingForUserTranscript : Bool
  bufferedAssistantTranscript : List String
  messages : List ChatMsg
deriving DecidableEq, Repr

def initialState : SessionState :=
  { currentPhase := .greeting
    dbPhase := .greeting
    outcome := none
    saleConfirmed := none
    endedAt := false
    isWaitingForUserTranscript := false
    bufferedAssistantTranscript := []
    messages := [] }

/-- Per-connection configuration, read once at session start, plus the
client socket's readiness at the moment an event is handled
(`clientWs.readyState === WebSocket.OPEN`). -/
structure Config where
  salesMode : Mode
  difficulty : String
  triggerPhrase : Option String
  clientOpen : Bool
deriving DecidableEq, Repr

/-- Events the handler sends to the client over the websocket. -/
inductive ClientEvent where
  | audio (chunk : String)
  | assistant_transcript (text : String)
  | user_transcript (text : String)
  | sale_made (headline : String) (message : String)
  | sale_denied (headline : String) (message : String)
  | error (message : String)
deriving DecidableEq, Repr

def isAssistantTranscript : ClientEvent → Bool
  | .assistant_transcript _ => true
  | _ => false

def isErrorEvent : ClientEvent → Bool
  | .error _ => true
  | _ => false

def isSaleEvent : ClientEvent → Bool
  | .sale_made _ _ => true
  | .sale_denied _ _ => true
  | _ => false

/-- Result of handling one upstream event: the new session state, the
events sent to the client, whether a classifier call was made, and the
message window passed to it (empty when no call was made). -/
structure StepResult where
  state : SessionState
  sent : List ClientEvent
  classifierCalled : Bool
  classifierWindow : List ChatMsg
deriving DecidableEq, Repr

/-! ## chatHandler.ts: lexical signal lists (verbatim from the source) -/

def exitPhrases : List String :=
  ["bye", "goodbye", "i'm done", "end session", "not interested",
   "no thanks", "i don't want", "forget it", "never mind", "i'll pass"]

def buyPhrases : List String :=
  ["i'll take it", "i'll buy", "sold", "deal", "yes", "sign me up",
   "i want it", "i'm in"]

def giveUpPhrases : List String :=
  ["bye", "goodbye", "i give up", "i'm done", "forget it", "never mind",
   "i quit", "end session"]

/-! ## chatHandler.ts: event handlers -/

/-- `logMessage`: appends one message row with the current phase string. -/
def logMessage (st : SessionState) (role content phase : String) :
    SessionState :=
  { st with messages := st.messages ++ [⟨role, content, phase⟩] }

/-- The session update run by every commit path: sets the outcome and
`saleConfirmed`, sets the phase column to `completed` and stamps
`endedAt`.  The local `currentPhase` variable is not touched. -/
def commitOutcome (st : SessionState) (o : SessionOutcome)
    (confirmed : Bool) : SessionState :=
  { st with outcome := some o, saleConfirmed := some confirmed,
            dbPhase := .completed, endedAt := true }

/-- `config?.triggerPhrase?.toLowerCase() || 'sell me a pen'`. -/
def effectiveTriggerPhrase (cfg : Config) : String :=
  match cfg.triggerPhrase with
  | some tp => if lowerStr tp = "" then "sell me a pen" else lowerStr tp
  | none => "sell me a pen"

/-- `prisma.message.count({ where: { sessionId, role: 'user' } })`. -/
def userMessageCount (msgs : List ChatMsg) : Nat :=
  (msgs.filter (fun m => m.role = "user")).length

/-- `prisma.message.findMany({ orderBy: { createdAt: 'asc' }, take: 15 })`:
with ascending order, Prisma returns the first 15 rows. -/
def takeFirst15 (msgs : List ChatMsg) : List ChatMsg := msgs.take 15

/-- `const confidenceThreshold = isExitSignal ? 60 : 80`. -/
def aiSellsThreshold (isExitSignal : Bool) : Nat :=
  if isExitSignal then 60 else 80

/-- The commit decision shared by all classifier-driven commit sites:
commit `sale_made` on SALE_CONFIRMED and `no_sale` on SALE_DENIED when
the confidence reaches the threshold, otherwise nothing. -/
def commitOf (threshold : Nat) (a : AnalysisResult) :
    Option SessionOutcome :=
  if a.confidence ≥ threshold then
    match a.outcome with
    | .SALE_CONFIRMED => some .sale_made
    | .SALE_DENIED => some .no_sale
    | .UNDECIDED => none
  else none

/-- `case 'input_audio_buffer.speech_started'`. -/
def speechStartedStep (st : SessionState) : SessionState :=
  { st with isWaitingForUserTranscript := true,
            bufferedAssistantTranscript := [] }

/-- `case 'response.audio.delta'`: forward the chunk when the client
socket is open. -/
def audioDeltaStep (cfg : Config) (st : SessionState) (delta : String) :
    StepResult :=
  if cfg.clientOpen then ⟨st, [.audio delta], false, []⟩
  else ⟨st, [], false, []⟩

/-- `case 'response.audio_transcript.delta'`: buffer while waiting for the
user transcript, otherwise forward when the client socket is open. -/
def transcriptDeltaStep (cfg : Config) (st : SessionState)
    (delta : String) : StepResult :=
  if st.isWaitingForUserTranscript then
    ⟨{ st with bufferedAssistantTranscript :=
         st.bufferedAssistantTranscript ++ [delta] }, [], false, []⟩
  else if cfg.clientOpen then
    ⟨st, [.assistant_transcript delta], false, []⟩
  else ⟨st, [], false, []⟩

/-- `case 'response.audio_transcript.done'`: log the assistant message;
in USER SELLS mode past the greeting, run the customer-side outcome
detection with a fixed threshold of 80. -/
def transcriptDoneStep (cfg : Config) (st : SessionState)
    (transcript : String) (resp : UpstreamResponse) : StepResult :=
  if transcript = "" then ⟨st, [], false, []⟩
  else
    let st1 := logMessage st "assistant" transcript (phaseStr st.currentPhase)
    if cfg.salesMode = .user_sells ∧ st1.currentPhase ≠ .greeting then
      let window := takeFirst15 st1.messages
      let analysis :=
        detectUserSaleOutcome (window.map toRoleContent) cfg.difficulty resp
      match commitOf 80 analysis with
      | some .sale_made =>
          ⟨commitOutcome st1 .sale_made true,
           [.sale_made (analysis.popupHeadline.getD "YOU MADE THE SALE!")
              (analysis.popupMessage.getD
                "Great job! The customer bought the pen!")],
           true, window⟩
      | some .no_sale =>
          ⟨commitOutcome st1 .no_sale false,
           [.sale_denied (analysis.popupHeadline.getD "NO SALE")
              (analysis.popupMessage.getD
                "The customer said no. Try a different approach!")],
           true, window⟩
      | _ => ⟨st1, [], true, window⟩
    else ⟨st1, [], false, []⟩

/-- End of the user-transcript handler: flush the buffered assistant
transcript as one aggregated event (inside the open-socket guard), then
reset the waiting flag (outside it). -/
def finishTurn (st : SessionState) (sent : List ClientEvent)
    (called : Bool) (window : List ChatMsg) : StepResult :=
  if st.bufferedAssistantTranscript.length > 0 then
    ⟨{ st with
        isWaitingForUserTranscript := false
        bufferedAssistantTranscript := [] },
     sent ++ [.assistant_transcript
       (String.join st.bufferedAssistantTranscript)],
     called, window⟩
  else
    ⟨{ st with isWaitingForUserTranscript := false }, sent, called, window⟩

/-- The AI SELLS branch of the user-transcript handler: trigger-phrase
check, message-count phase progression, lexical exit/buy signals, and the
classifier-gated commit. -/
def aiSellsUserStep (cfg : Config) (st1 : SessionState)
    (transcript : String) (resp : UpstreamResponse) : StepResult :=
  let lower := lowerStr transcript
  let st2 :=
    if strIncludes lower (effectiveTriggerPhrase cfg) then
      { st1 with currentPhase := .discovery, dbPhase := .discovery }
    else st1
  let messageCount := userMessageCount st2.messages
  let st3 :=
    if st2.currentPhase = .discovery ∧ messageCount ≥ 3 then
      { st2 with currentPhase := .positioning, dbPhase := .positioning }
    else if st2.currentPhase = .positioning ∧ messageCount ≥ 5 then
      { st2 with currentPhase := .closing, dbPhase := .closing }
    else st2
  let isExitSignal := exitPhrases.any (fun p => strIncludes lower p)
  let isBuySignal := buyPhrases.any (fun p => strIncludes lower p)
  if st3.currentPhase = .closing ∨ isExitSignal ∨ isBuySignal ∨
      st3.currentPhase ≠ .greeting then
    let window := takeFirst15 st3.messages
    let analysis := detectSaleOutcome (window.map toRoleContent) resp
    match commitOf (aiSellsThreshold isExitSignal) analysis with
    | some .sale_made =>
        finishTurn (commitOutcome st3 .sale_made true)
          ([.user_transcript transcript,
            .sale_made (analysis.popupHeadline.getD "SALE MADE!")
              (analysis.popupMessage.getD
                "Congratulations! You closed the deal!")])
          true window
    | some .no_sale =>
        finishTurn (commitOutcome st3 .no_sale false)
          ([.user_transcript transcript,
            .sale_denied (analysis.popupHeadline.getD "NO SALE")
              (analysis.popupMessage.getD
                "The customer declined. Better luck next time!")])
          true window
    | _ => finishTurn st3 [.user_transcript transcript] true window
  else
    finishTurn st3 [.user_transcript transcript] false []

/-- The USER SELLS branch of the user-transcript handler: greeting →
pitching on the first user message, then the give-up lexical
short-circuit. -/
def userSellsUserStep (st1 : SessionState) (transcript : String) :
    StepResult :=
  let st2 :=
    if st1.currentPhase = .greeting then
      { st1 with currentPhase := .pitching, dbPhase := .pitching }
    else st1
  let lower := lowerStr transcript
  let isGivingUp := giveUpPhrases.any (fun p => strIncludes lower p)
  if isGivingUp then
    finishTurn (commitOutcome st2 .no_sale false)
      ([.user_transcript transcript,
        .sale_denied "SESSION ENDED"
          "You ended the session without making a sale. Keep practicing!"])
      false []
  else
    finishTurn st2 [.user_transcript transcript] false []

/-- `case 'conversation.item.input_audio_transcription.completed'`: the
whole user-turn body runs only when the client socket is open; the
waiting flag is reset unconditionally. -/
def userTranscriptCompletedStep (cfg : Config) (st : SessionState)
    (transcript : String) (resp : UpstreamResponse) : StepResult :=
  if cfg.clientOpen then
    let st1 := logMessage st "user" transcript (phaseStr st.currentPhase)
    match cfg.salesMode with
    | .ai_sells => aiSellsUserStep cfg st1 transcript resp
    | .user_sells => userSellsUserStep st1 transcript
  else
    ⟨{ st with isWaitingForUserTranscript := false }, [], false, []⟩

/-- The client-close handler: mark the session abandoned only when
`endedAt` is still null. -/
def markAbandonedOnClose (st : SessionState) : SessionState :=
  if st.endedAt then st
  else { st with outcome := some .abandoned, endedAt := true }

/-! ## Concrete sessions used by the claims -/

/-- AI-sells configuration with the client socket open. -/
def aiCfg : Config := ⟨.ai_sells, "medium", none, true⟩

/-- User-sells configuration with the client socket open. -/
def userCfg : Config := ⟨.user_sells, "hard", none, true⟩

/-- User-sells configuration with the client socket closed. -/
def userCfgClosed : Config := ⟨.user_sells, "hard", none, false⟩

/-- A user-sells session that was marked abandoned on disconnect (the
close handler sets only `outcome` and `endedAt`, so the phase columns
keep their last values). -/
def c1Abandoned : SessionState :=
  { currentPhase := .pitching
    dbPhase := .pitching
    outcome := some .abandoned
    saleConfirmed := none
    endedAt := true
    isWaitingForUserTranscript := false
    bufferedAssistantTranscript := []
    messages := [⟨"user", "hello", "greeting"⟩] }

/-- A session whose outcome has already been committed as `sale_made`
(the commit paths leave the local `currentPhase` variable untouched, so
it still reads `closing`). -/
def c1State : SessionState :=
  { currentPhase := .closing
    dbPhase := .completed
    outcome := some .sale_made
    saleConfirmed := some true
    endedAt := true
    isWaitingForUserTranscript := false
    bufferedAssistantTranscript := []
    messages := [⟨"user", "sell me a pen", "greeting"⟩,
                 ⟨"user", "okay i will take it", "closing"⟩] }

/-- An uncommitted session that has legitimately reached the CLOSING
phase after five user messages. -/
def c2State : SessionState :=
  { currentPhase := .closing
    dbPhase := .closing
    outcome := none
    saleConfirmed := none
    endedAt := false
    isWaitingForUserTranscript := false
    bufferedAssistantTranscript := []
    messages :=
      [⟨"user", "hello", "greeting"⟩, ⟨"user", "ok", "discovery"⟩,
       ⟨"user", "ok", "discovery"⟩, ⟨"user", "ok", "positioning"⟩,
       ⟨"user", "ok", "positioning"⟩] }

/-- An uncommitted session in the DISCOVERY phase with one persisted
user message. -/
def c3State : SessionState :=
  { currentPhase := .discovery
    dbPhase := .discovery
    outcome := none
    saleConfirmed := none
    endedAt := false
    isWaitingForUserTranscript := false
    bufferedAssistantTranscript := []
    messages := [⟨"user", "hello there", "greeting"⟩] }

/-- An uncommitted session in the POSITIONING phase with three persisted
user messages. -/
def c4State : SessionState :=
  { currentPhase := .positioning
    dbPhase := .positioning
    outcome := none
    saleConfirmed := none
    endedAt := false
    isWaitingForUserTranscript := false
    bufferedAssistantTranscript := []
    messages :=
      [⟨"user", "hello", "greeting"⟩, ⟨"user", "ok", "discovery"⟩,
       ⟨"user", "ok", "discovery"⟩] }

/-- A DENIED verdict with confidence 70. -/
def denied70 : UpstreamResponse :=
  .parsed (some .SALE_DENIED) (some 70) (some "customer walked away")
    none none none

/-- An uncommitted session in the POSITIONING phase. -/
def c7State : SessionState :=
  { currentPhase := .positioning
    dbPhase := .positioning
    outcome := none
    saleConfirmed := none
    endedAt := false
    isWaitingForUserTranscript := false
    bufferedAssistantTranscript := []
    messages := [⟨"user", "hello", "greeting"⟩] }

/-- One of fifteen identical already-persisted user messages. -/
def c8Msg : ChatMsg := ⟨"user", "earlier", "closing"⟩

/-- A CLOSING-phase session already holding fifteen persisted messages. -/
def c8State : SessionState :=
  { currentPhase := .closing
    dbPhase := .closing
    outcome := none
    saleConfirmed := none
    endedAt := false
    isWaitingForUserTranscript := false
    bufferedAssistantTranscript := []
    messages := List.replicate 15 c8Msg }

/-! ## Helper lemmas -/

theorem finishTurn_state (s : SessionState) (sent : List ClientEvent)
    (c : Bool) (w : List ChatMsg) :
    (finishTurn s sent c w).state.currentPhase = s.currentPhase ∧
    (finishTurn s sent c w).state.dbPhase = s.dbPhase ∧
    (finishTurn s sent c w).state.outcome = s.outcome ∧
    (finishTurn s sent c w).state.endedAt = s.endedAt ∧
    (finishTurn s sent c w).state.messages = s.messages ∧
    (finishTurn s sent c w).state.isWaitingForUserTranscript = false ∧
    (finishTurn s sent c w).state.bufferedAssistantTranscript = [] := by
  unfold finishTurn
  split
  · simp
  · rename_i hlen
    have hb : s.bufferedAssistantTranscript = [] := by
      cases hbe : s.bufferedAssistantTranscript with
      | nil => rfl
      | cons a l => rw [hbe] at hlen; simp at hlen
    simp [hb]

theorem finishTurn_sent_filter (s : SessionState) (sent : List ClientEvent)
    (c : Bool) (w : List ChatMsg)
    (hsent : sent.filter isAssistantTranscript = []) :
    (finishTurn s sent c w).sent.filter isAssistantTranscript =
      (if s.bufferedAssistantTranscript.length > 0 then
        [ClientEvent.assistant_transcript
          (String.join s.bufferedAssistantTranscript)]
       else []) := by
  unfold finishTurn
  split <;> rename_i hlen <;>
    simp_all [List.filter_append, isAssistantTranscript]

theorem finishTurn_sent_of_no_at (s : SessionState)
    (sent : List ClientEvent) (c : Bool) (w : List ChatMsg)
    (hE : sent.filter isErrorEvent = [])
    (hS : sent.filter isSaleEvent = []) :
    (finishTurn s sent c w).sent.filter isErrorEvent = [] ∧
    (finishTurn s sent c w).sent.filter isSaleEvent = [] := by
  unfold finishTurn
  split <;> simp_all [List.filter_append, isErrorEvent, isSaleEvent]

theorem phaseRank_le_completed (p : Phase) :
    phaseRank p ≤ phaseRank .completed := by
  cases p <;> decide

theorem finishTurn_called (s : SessionState) (sent : List ClientEvent)
    (c : Bool) (w : List ChatMsg) :
    (finishTurn s sent c w).classifierCalled = c := by
  unfold finishTurn
  split <;> rfl

theorem finishTurn_sent_mem (s : SessionState) (sent : List ClientEvent)
    (c : Bool) (w : List ChatMsg) (e : ClientEvent) (he : e ∈ sent) :
    e ∈ (finishTurn s sent c w).sent := by
  unfold finishTurn
  split <;> simp_all

theorem phaseRank_le_four (p : Phase) : phaseRank p ≤ 4 := by
  cases p <;> decide

theorem aiSellsUserStep_phase_mono (cfg : Config) (st1 : SessionState)
    (t : String) (resp : UpstreamResponse)
    (hsync : st1.currentPhase = st1.dbPhase)
    (htrig : strIncludes (lowerStr t) (effectiveTriggerPhrase cfg) = false) :
    phaseRank st1.dbPhase ≤
      phaseRank (aiSellsUserStep cfg st1 t resp).state.dbPhase ∧
    phaseRank st1.currentPhase ≤
      phaseRank (aiSellsUserStep cfg st1 t resp).state.currentPhase := by
  unfold aiSellsUserStep
  simp only [htrig, Bool.false_eq_true, ite_false]
  split
  case isTrue h3 =>
    split
    · split <;>
        simp_all [finishTurn_state, commitOutcome, phaseRank,
          phaseRank_le_four, hsync.symm]
    · simp_all [finishTurn_state, phaseRank, hsync.symm]
  case isFalse h3 =>
    split
    case isTrue h5 =>
      split
      · split <;>
          simp_all [finishTurn_state, commitOutcome, phaseRank,
            phaseRank_le_four, hsync.symm]
      · simp_all [finishTurn_state, phaseRank, hsync.symm]
    case isFalse h5 =>
      split
      · split <;>
          simp_all [finishTurn_state, commitOutcome, phaseRank,
            phaseRank_le_four, hsync.symm] <;>
          (try (cases hp : st1.currentPhase <;> simp_all))
      · simp_all [finishTurn_state, phaseRank, hsync.symm]

theorem commitOf_threshold_default (b : Bool) :
    commitOf (aiSellsThreshold b) defaultErrorResult = none := by
  cases b <;> decide

theorem commitOf_80_default : commitOf 80 defaultErrorResult = none := by
  decide

theorem aiSellsUserStep_buffer (cfg : Config) (st1 : SessionState)
    (t : String) (resp : UpstreamResponse) :
    (aiSellsUserStep cfg st1 t resp).sent.filter isAssistantTranscript =
      (if st1.bufferedAssistantTranscript.length > 0 then
        [ClientEvent.assistant_transcript
          (String.join st1.bufferedAssistantTranscript)]
       else []) ∧
    (aiSellsUserStep cfg st1 t resp).state.bufferedAssistantTranscript =
      [] ∧
    (aiSellsUserStep cfg st1 t resp).state.isWaitingForUserTranscript =
      false := by
  unfold aiSellsUserStep
  cases htr : strIncludes (lowerStr t) (effectiveTriggerPhrase cfg) <;>
    simp only [htr, Bool.false_eq_true, ite_false, ite_true] <;>
    split <;> (try split) <;> (try split) <;> (try split) <;>
    refine ⟨?_, ?_, ?_⟩ <;>
    simp [finishTurn_sent_filter, finishTurn_state, commitOutcome,
      isAssistantTranscript] <;>
    first
      | exact List.ne_nil_of_length_pos (by omega)
      | exact List.eq_nil_of_length_eq_zero (by omega)

theorem userSellsUserStep_buffer (st1 : SessionState) (t : String) :
    (userSellsUserStep st1 t).sent.filter isAssistantTranscript =
      (if st1.bufferedAssistantTranscript.length > 0 then
        [ClientEvent.assistant_transcript
          (String.join st1.bufferedAssistantTranscript)]
       else []) ∧
    (userSellsUserStep st1 t).state.bufferedAssistantTranscript = [] ∧
    (userSellsUserStep st1 t).state.isWaitingForUserTranscript = false := by
  unfold userSellsUserStep
  cases hg : giveUpPhrases.any (fun p => strIncludes (lowerStr t) p) <;>
    simp only [hg, Bool.false_eq_true, ite_false, ite_true] <;>
    split <;>
    refine ⟨?_, ?_, ?_⟩ <;>
    simp [finishTurn_sent_filter, finishTurn_state, commitOutcome,
      isAssistantTranscript] <;>
    first
      | exact List.ne_nil_of_length_pos (by omega)
      | exact List.eq_nil_of_length_eq_zero (by omega)

theorem userStep_buffer (cfg : Config) (st : SessionState) (t : String)
    (resp : UpstreamResponse) (hc : cfg.clientOpen = true) :
    (userTranscriptCompletedStep cfg st t resp).sent.filter
        isAssistantTranscript =
      (if st.bufferedAssistantTranscript.length > 0 then
        [ClientEvent.assistant_transcript
          (String.join st.bufferedAssistantTranscript)]
       else []) ∧
    (userTranscriptCompletedStep cfg st t
      resp).state.bufferedAssistantTranscript = [] ∧
    (userTranscriptCompletedStep cfg st t
      resp).state.isWaitingForUserTranscript = false := by
  unfold userTranscriptCompletedStep
  simp only [hc, if_true]
  cases hm : cfg.salesMode
  · have h := aiSellsUserStep_buffer cfg
      (logMessage st "user" t (phaseStr st.currentPhase)) t resp
    simpa [logMessage] using h
  · have h := userSellsUserStep_buffer
      (logMessage st "user" t (phaseStr st.currentPhase)) t
    simpa [logMessage] using h

theorem aiSellsUserStep_failed_resp (cfg : Config) (st1 : SessionState)
    (t : String) (resp : UpstreamResponse)
    (hfail : resp = .netError ∨ resp = .badJson) :
    (aiSellsUserStep cfg st1 t resp).sent.filter isErrorEvent = [] ∧
    (aiSellsUserStep cfg st1 t resp).sent.filter isSaleEvent = [] ∧
    (aiSellsUserStep cfg st1 t resp).state.outcome = st1.outcome ∧
    (aiSellsUserStep cfg st1 t resp).state.endedAt = st1.endedAt := by
  unfold aiSellsUserStep
  rcases hfail with h | h <;> subst h <;>
    simp only [detectSaleOutcome, analyzeWithAI,
      commitOf_threshold_default] <;>
    cases htr : strIncludes (lowerStr t) (effectiveTriggerPhrase cfg) <;>
    simp only [htr, Bool.false_eq_true, ite_false, ite_true] <;>
    split <;> (try split) <;> (try split) <;>
    refine ⟨(finishTurn_sent_of_no_at _ _ _ _ (by simp [isErrorEvent])
        (by simp [isSaleEvent])).1,
      (finishTurn_sent_of_no_at _ _ _ _ (by simp [isErrorEvent])
        (by simp [isSaleEvent])).2, ?_, ?_⟩ <;>
    simp [finishTurn_state]

/-! ## Claim theorems -/

/-- C1, counterexample: neither Gate commit site checks for an
already-committed outcome.  On the session `c1State`, whose outcome was
committed as `sale_made`, a second qualifying DENIED verdict (confidence
90 on the exit-signalled utterance "no thanks") overwrites the first
commit with `no_sale`; and on the session `c1Abandoned`, already marked
abandoned, a confident DENIED verdict arriving on the assistant-
transcript Gate path overwrites `abandoned` with `no_sale` even though
the client socket is closed — contradicting the write-once claim in both
of its cited scenarios. -/
theorem C1_counterexample :
    c1State.outcome = some .sale_made ∧ c1State.endedAt = true ∧
    (userTranscriptCompletedStep aiCfg c1State "no thanks"
        (.parsed (some .SALE_DENIED) (some 90) (some "declined")
          none none none)).state.outcome = some .no_sale ∧
    c1Abandoned.outcome = some .abandoned ∧ c1Abandoned.endedAt = true ∧
    userCfgClosed.clientOpen = false ∧
    (transcriptDoneStep userCfgClosed c1Abandoned "i will not buy it"
        (.parsed (some .SALE_DENIED) (some 90) none none none
          none)).state.outcome = some .no_sale := by
  decide

/-- C1, amended: the disconnect-abandonment path never changes a
committed outcome (it requires `endedAt` to still be null), and the
user-transcript Gate path — the only guarded one — changes nothing while
the client socket is not open; but neither Gate commit site performs a
write-once check: a second qualifying classifier verdict overwrites the
committed outcome and `endedAt` — on the user-transcript path whenever
the socket is open (shown with a DENIED verdict of confidence 85), and
on the assistant-transcript (user_sells) path regardless of the socket's
state and of the stored outcome, including over a session already marked
abandoned. -/
theorem C1_amended :
    (∀ st : SessionState, st.endedAt = true → markAbandonedOnClose st = st) ∧
    (∀ (cfg : Config) (st : SessionState) (t : String)
        (resp : UpstreamResponse), cfg.clientOpen = false →
      (userTranscriptCompletedStep cfg st t resp).state.outcome = st.outcome ∧
      (userTranscriptCompletedStep cfg st t resp).state.endedAt = st.endedAt ∧
      (userTranscriptCompletedStep cfg st t resp).state.dbPhase = st.dbPhase) ∧
    (c1State.outcome = some .sale_made ∧
     (userTranscriptCompletedStep aiCfg c1State "i'll pass"
        (.parsed (some .SALE_DENIED) (some 85) none none none
          none)).state.outcome = some .no_sale) ∧
    (∀ (cfg : Config) (st : SessionState) (tr : String)
        (resp : UpstreamResponse),
      cfg.salesMode = .user_sells → st.currentPhase ≠ .greeting →
      tr ≠ "" →
      (detectUserSaleOutcome [] "" resp).outcome = .SALE_DENIED →
      80 ≤ (detectUserSaleOutcome [] "" resp).confidence →
      (transcriptDoneStep cfg st tr resp).state.outcome = some .no_sale ∧
      (transcriptDoneStep cfg st tr resp).state.endedAt = true) := by
  refine ⟨?_, ?_, by decide, ?_⟩
  · intro st h
    simp [markAbandonedOnClose, h]
  · intro cfg st t resp h
    simp [userTranscriptCompletedStep, h]
  · intro cfg st tr resp hm hph htr hout hconf
    rcases resp with _ | _ | ⟨o, c, r, k, hd, m⟩
    · simp [detectUserSaleOutcome, defaultErrorResult] at hout
    · simp [detectUserSaleOutcome, defaultErrorResult] at hout
    · rcases o with _ | ov
      · simp [detectUserSaleOutcome] at hout
      · simp [detectUserSaleOutcome] at hout hconf
        subst hout
        unfold transcriptDoneStep
        rw [if_neg htr]
        have hcond : cfg.salesMode = .user_sells ∧
            ¬(logMessage st "assistant" tr
              (phaseStr st.currentPhase)).currentPhase = .greeting :=
          ⟨hm, by simpa [logMessage] using hph⟩
        rw [if_pos hcond]
        simp [detectUserSaleOutcome, commitOf, ge_iff_le, hconf,
          commitOutcome, logMessage]

/-- Witness for C1_amended at concrete inputs, exercising all three
hypothesis-bearing conjuncts. -/
theorem C1_amended_witness :
    markAbandonedOnClose c1State = c1State ∧
    (userTranscriptCompletedStep ⟨.ai_sells, "medium", none, false⟩
      c1State "hello" .netError).state.outcome = c1State.outcome ∧
    (transcriptDoneStep userCfgClosed c1Abandoned "sorry, no deal"
        (.parsed (some .SALE_DENIED) (some 95) none none none
          none)).state.outcome = some .no_sale :=
  ⟨C1_amended.1 c1State rfl,
   (C1_amended.2.1 ⟨.ai_sells, "medium", none, false⟩ c1State "hello"
     .netError rfl).1,
   (C1_amended.2.2.2 userCfgClosed c1Abandoned "sorry, no deal"
     (.parsed (some .SALE_DENIED) (some 95) none none none none)
     rfl (by decide) (by decide) rfl (by decide)).1⟩

/-- C2, counterexample: on the session `c2State`, which has legitimately
reached CLOSING, a user utterance containing the configured trigger
phrase resets the phase to DISCOVERY and the message-count rule then
re-advances it to POSITIONING — strictly earlier than CLOSING, so the
phase regresses. -/
theorem C2_counterexample :
    c2State.dbPhase = .closing ∧ c2State.currentPhase = .closing ∧
    (userTranscriptCompletedStep aiCfg c2State "okay sell me a pen"
        .netError).state.dbPhase = .positioning ∧
    (userTranscriptCompletedStep aiCfg c2State "okay sell me a pen"
        .netError).state.currentPhase = .positioning ∧
    phaseRank .positioning < phaseRank .closing := by
  decide

/-- C2, amended: in AI_IS_SELLER mode the phase is non-decreasing for
every finalized user utterance that does not contain the configured
trigger phrase (for a session whose local and persisted phase agree);
an utterance containing the trigger phrase unconditionally resets the
phase to DISCOVERY (possibly immediately re-advanced by message count)
and can therefore regress the phase from CLOSING or COMPLETED. -/
theorem C2_amended (cfg : Config) (st : SessionState) (t : String)
    (resp : UpstreamResponse)
    (hm : cfg.salesMode = .ai_sells)
    (hsync : st.currentPhase = st.dbPhase)
    (htrig : strIncludes (lowerStr t) (effectiveTriggerPhrase cfg) = false) :
    phaseRank st.dbPhase ≤
      phaseRank (userTranscriptCompletedStep cfg st t resp).state.dbPhase ∧
    phaseRank st.currentPhase ≤
      phaseRank
        (userTranscriptCompletedStep cfg st t resp).state.currentPhase := by
  unfold userTranscriptCompletedStep
  split
  · simp only [hm]
    have h := aiSellsUserStep_phase_mono cfg
      (logMessage st "user" t (phaseStr st.currentPhase)) t resp
      (by simpa [logMessage] using hsync) htrig
    simpa [logMessage] using h
  · simp

/-- Witness for C2_amended: a non-trigger utterance from the CLOSING
phase leaves the phase at least CLOSING. -/
theorem C2_amended_witness :
    phaseRank c2State.dbPhase ≤
      phaseRank (userTranscriptCompletedStep aiCfg c2State "tell me more"
        .netError).state.dbPhase ∧
    phaseRank c2State.currentPhase ≤
      phaseRank (userTranscriptCompletedStep aiCfg c2State "tell me more"
        .netError).state.currentPhase :=
  C2_amended aiCfg c2State "tell me more" .netError rfl rfl (by decide)

/-- C3: the claim says that with neither lexical signal present and the
phase below CLOSING the classifier is not invoked, matching the source's
own comment ("run on closing phase OR when exit/buy signal detected") and
the repository documentation; but the gate condition also contains
`currentPhase !== 'greeting'`, so on the DISCOVERY-phase session
`c3State` an utterance with no exit or buy signal still invokes the
classifier. -/
theorem C3_gate_invoked_bug :
    exitPhrases.any
      (fun p => strIncludes (lowerStr "i like this product") p) = false ∧
    buyPhrases.any
      (fun p => strIncludes (lowerStr "i like this product") p) = false ∧
    c3State.currentPhase = .discovery ∧
    (userTranscriptCompletedStep aiCfg c3State "i like this product"
        .netError).classifierCalled = true ∧
    (userTranscriptCompletedStep aiCfg c3State "i like this product"
        .netError).state.outcome = none := by
  decide

/-- C5, counterexample: a committed terminal outcome does not stop the
bridge from forwarding upstream media.  On the committed session
`c1State`, an upstream audio delta is still sent to the client, and an
assistant transcript delta outside a buffering window is too. -/
theorem C5_counterexample :
    c1State.outcome = some .sale_made ∧ c1State.endedAt = true ∧
    (audioDeltaStep aiCfg c1State "CHUNK").sent =
      [.audio "CHUNK"] ∧
    (transcriptDeltaStep aiCfg c1State "more text").sent =
      [.assistant_transcript "more text"] := by
  decide

/-- C5, amended: forwarding of audio and assistant-transcript deltas
depends only on the client socket being open (and, for transcripts, on
the buffering window), never on the session's outcome: committing a
terminal outcome does not suppress later outbound media events. -/
theorem C5_amended (cfg : Config) (st : SessionState) (delta : String)
    (hc : cfg.clientOpen = true) :
    (audioDeltaStep cfg st delta).sent = [.audio delta] ∧
    (st.isWaitingForUserTranscript = false →
      (transcriptDeltaStep cfg st delta).sent =
        [.assistant_transcript delta]) := by
  constructor
  · simp [audioDeltaStep, hc]
  · intro hw
    simp [transcriptDeltaStep, hw, hc]

/-- Witness for C5_amended on the committed session `c1State`. -/
theorem C5_amended_witness :
    (audioDeltaStep aiCfg c1State "XYZ").sent = [.audio "XYZ"] ∧
    (c1State.isWaitingForUserTranscript = false →
      (transcriptDeltaStep aiCfg c1State "XYZ").sent =
        [.assistant_transcript "XYZ"]) :=
  C5_amended aiCfg c1State "XYZ" rfl

/-- C7, counterexample: in AI_IS_SELLER (`ai_sells`) mode there is no
give-up short-circuit.  On the POSITIONING-phase session `c7State`, the
farewell utterance "goodbye" matches the give-up list, yet the handler
invokes the classifier, and with a failed classification (UNDECIDED,
confidence 0) commits nothing — the claim's immediate NO_SALE commit
without a classifier call does not happen in this mode. -/
theorem C7_counterexample :
    giveUpPhrases.any (fun p => strIncludes (lowerStr "goodbye") p) = true ∧
    c7State.dbPhase ≠ .completed ∧
    (userTranscriptCompletedStep aiCfg c7State "goodbye"
        .netError).classifierCalled = true ∧
    (userTranscriptCompletedStep aiCfg c7State "goodbye"
        .netError).state.outcome = none := by
  decide

/-- C7, amended: the give-up short-circuit lives in AI_IS_CUSTOMER
(`user_sells`) mode: a finalized USER utterance matching a give-up phrase
commits NO_SALE immediately, with no classifier invocation, and the
client receives the `sale_denied` session-ended event — regardless of
the current phase. -/
theorem C7_amended (cfg : Config) (st : SessionState) (t : String)
    (resp : UpstreamResponse)
    (hm : cfg.salesMode = .user_sells)
    (hc : cfg.clientOpen = true)
    (hg : giveUpPhrases.any (fun p => strIncludes (lowerStr t) p) = true) :
    (userTranscriptCompletedStep cfg st t resp).state.outcome =
      some .no_sale ∧
    (userTranscriptCompletedStep cfg st t resp).state.endedAt = true ∧
    (userTranscriptCompletedStep cfg st t resp).classifierCalled = false ∧
    ClientEvent.sale_denied "SESSION ENDED"
        "You ended the session without making a sale. Keep practicing!" ∈
      (userTranscriptCompletedStep cfg st t resp).sent := by
  unfold userTranscriptCompletedStep
  simp only [hc, if_true, hm]
  unfold userSellsUserStep
  simp only [hg, if_true]
  split <;>
    exact ⟨by simp [finishTurn_state, commitOutcome],
      by simp [finishTurn_state, commitOutcome],
      by simp [finishTurn_called],
      finishTurn_sent_mem _ _ _ _ _ (by simp)⟩

/-- Witness for C7_amended: the give-up utterance "goodbye" in
`user_sells` mode. -/
theorem C7_amended_witness :
    (userTranscriptCompletedStep userCfg c7State "goodbye"
        .netError).state.outcome = some .no_sale ∧
    (userTranscriptCompletedStep userCfg c7State "goodbye"
        .netError).state.endedAt = true ∧
    (userTranscriptCompletedStep userCfg c7State "goodbye"
        .netError).classifierCalled = false ∧
    ClientEvent.sale_denied "SESSION ENDED"
        "You ended the session without making a sale. Keep practicing!" ∈
      (userTranscriptCompletedStep userCfg c7State "goodbye"
        .netError).sent :=
  C7_amended userCfg c7State "goodbye" .netError rfl rfl (by decide)

/-- C8: the conversation window handed to the classifier is built with
an ascending-order query taking 15 rows, i.e. the EARLIEST fifteen
messages, and `analyzeWithAI` then keeps the last ten of those; the
repository documentation (descending query, then reverse) and the claim
both call for the most recent messages.  On a session with sixteen
persisted messages the newest message is absent from both windows. -/
theorem C8_window_bug :
    (userTranscriptCompletedStep aiCfg c8State "the sixteenth message"
        .netError).classifierCalled = true ∧
    (userTranscriptCompletedStep aiCfg c8State "the sixteenth message"
        .netError).state.messages.length = 16 ∧
    (userTranscriptCompletedStep aiCfg c8State "the sixteenth message"
        .netError).state.messages.getLast? =
      some ⟨"user", "the sixteenth message", "closing"⟩ ∧
    (userTranscriptCompletedStep aiCfg c8State "the sixteenth message"
        .netError).classifierWindow = List.replicate 15 c8Msg ∧
    (⟨"user", "the sixteenth message", "closing"⟩ : ChatMsg) ∉
      (userTranscriptCompletedStep aiCfg c8State "the sixteenth message"
        .netError).classifierWindow ∧
    conversationTextWindow
        ((userTranscriptCompletedStep aiCfg c8State "the sixteenth message"
          .netError).classifierWindow.map toRoleContent) =
      List.replicate 10 (toRoleContent c8Msg) := by
  decide

/-- C4: a classifier verdict with outcome CONFIRMED or DENIED is
committed exactly when its confidence reaches the applicable threshold —
`aiSellsThreshold` (60 with an exit signal, 80 without) in AI_IS_SELLER
mode, and the fixed 80 used in AI_IS_CUSTOMER mode; concretely, a DENIED
verdict with confidence 70 on the exit-signalled utterance "bye" commits
NO_SALE and completes the phase, while the identical verdict on an
utterance without an exit signal commits nothing and the phase does not
become COMPLETED. -/
theorem C4_threshold :
    (∀ (a : AnalysisResult) (isExit : Bool), a.outcome ≠ .UNDECIDED →
      ((commitOf (aiSellsThreshold isExit) a).isSome = true ↔
        aiSellsThreshold isExit ≤ a.confidence)) ∧
    (∀ a : AnalysisResult, a.outcome ≠ .UNDECIDED →
      ((commitOf 80 a).isSome = true ↔ 80 ≤ a.confidence)) ∧
    aiSellsThreshold true = 60 ∧ aiSellsThreshold false = 80 ∧
    (userTranscriptCompletedStep aiCfg c4State "bye" denied70).state.outcome
      = some .no_sale ∧
    (userTranscriptCompletedStep aiCfg c4State "bye" denied70).state.dbPhase
      = .completed ∧
    (userTranscriptCompletedStep aiCfg c4State "hmm let me think about that"
      denied70).state.outcome = none ∧
    (userTranscriptCompletedStep aiCfg c4State "hmm let me think about that"
      denied70).state.dbPhase ≠ .completed := by
  refine ⟨?_, ?_, rfl, rfl, by decide, by decide, by decide, by decide⟩
  · intro a isExit h
    by_cases hge : aiSellsThreshold isExit ≤ a.confidence
    · cases ho : a.outcome <;> simp_all [commitOf, ge_iff_le, hge]
    · simp [commitOf, ge_iff_le, hge]
  · intro a h
    by_cases hge : 80 ≤ a.confidence
    · cases ho : a.outcome <;> simp_all [commitOf, ge_iff_le, hge]
    · simp [commitOf, ge_iff_le, hge]

/-- Witness for C4_threshold: the DENIED / confidence-70 verdict against
both thresholds. -/
theorem C4_threshold_witness :
    ((commitOf (aiSellsThreshold true)
        ⟨.SALE_DENIED, 70, "walked away", none, none, none⟩).isSome = true ↔
      aiSellsThreshold true ≤ 70) ∧
    ((commitOf 80
        ⟨.SALE_DENIED, 70, "walked away", none, none, none⟩).isSome = true ↔
      80 ≤ 70) :=
  ⟨C4_threshold.1 ⟨.SALE_DENIED, 70, "walked away", none, none, none⟩ true
      (by decide),
   C4_threshold.2.1 ⟨.SALE_DENIED, 70, "walked away", none, none, none⟩
      (by decide)⟩

/-- C6: after a human speech-start opens the buffering window, assistant
fragments "A", "B", "C" are buffered rather than forwarded, and the
user-utterance-finalized handler emits exactly one aggregated
assistant-transcript event with text "ABC", leaving the buffer empty and
the window closed. -/
theorem C6_synchronizer (cfg : Config) (st : SessionState) (t : String)
    (resp : UpstreamResponse) (hc : cfg.clientOpen = true) :
    let s1 := speechStartedStep st
    let r2 := transcriptDeltaStep cfg s1 "A"
    let r3 := transcriptDeltaStep cfg r2.state "B"
    let r4 := transcriptDeltaStep cfg r3.state "C"
    let r5 := userTranscriptCompletedStep cfg r4.state t resp
    r2.sent = [] ∧ r3.sent = [] ∧ r4.sent = [] ∧
    r4.state.bufferedAssistantTranscript = ["A", "B", "C"] ∧
    r5.sent.filter isAssistantTranscript =
      [ClientEvent.assistant_transcript "ABC"] ∧
    r5.state.bufferedAssistantTranscript = [] ∧
    r5.state.isWaitingForUserTranscript = false := by
  intro s1 r2 r3 r4 r5
  have h := userStep_buffer cfg r4.state t resp hc
  exact ⟨rfl, rfl, rfl, rfl, h.1.trans rfl, h.2.1, h.2.2⟩

/-- Witness for C6_synchronizer on a concrete session. -/
theorem C6_synchronizer_witness :
    let s1 := speechStartedStep c3State
    let r2 := transcriptDeltaStep aiCfg s1 "A"
    let r3 := transcriptDeltaStep aiCfg r2.state "B"
    let r4 := transcriptDeltaStep aiCfg r3.state "C"
    let r5 := userTranscriptCompletedStep aiCfg r4.state "tell me more"
      .netError
    r2.sent = [] ∧ r3.sent = [] ∧ r4.sent = [] ∧
    r4.state.bufferedAssistantTranscript = ["A", "B", "C"] ∧
    r5.sent.filter isAssistantTranscript =
      [ClientEvent.assistant_transcript "ABC"] ∧
    r5.state.bufferedAssistantTranscript = [] ∧
    r5.state.isWaitingForUserTranscript = false :=
  C6_synchronizer aiCfg c3State "tell me more" .netError rfl

/-- C9: when the upstream classification call fails (network error) or
returns unparseable output, both `detectSaleOutcome` and
`detectUserSaleOutcome` return the UNDECIDED / confidence-0 fallback
value (they are total — no exception escapes), and feeding such a
failed classification through the handlers produces no client-visible
error event, no sale event, and no change to the session's outcome or
`endedAt`. -/
theorem C9_failure_fallback (msgs : List RoleContent) (difficulty : String)
    (resp : UpstreamResponse)
    (hfail : resp = .netError ∨ resp = .badJson) :
    detectSaleOutcome msgs resp = defaultErrorResult ∧
    detectUserSaleOutcome msgs difficulty resp = defaultErrorResult ∧
    defaultErrorResult.outcome = .UNDECIDED ∧
    defaultErrorResult.confidence = 0 ∧
    (∀ (cfg : Config) (st : SessionState) (t : String),
      cfg.salesMode = .ai_sells →
      (userTranscriptCompletedStep cfg st t resp).sent.filter
        isErrorEvent = [] ∧
      (userTranscriptCompletedStep cfg st t resp).sent.filter
        isSaleEvent = [] ∧
      (userTranscriptCompletedStep cfg st t resp).state.outcome =
        st.outcome ∧
      (userTranscriptCompletedStep cfg st t resp).state.endedAt =
        st.endedAt) ∧
    (∀ (cfg : Config) (st : SessionState) (tr : String),
      (transcriptDoneStep cfg st tr resp).sent = [] ∧
      (transcriptDoneStep cfg st tr resp).state.outcome = st.outcome ∧
      (transcriptDoneStep cfg st tr resp).state.endedAt = st.endedAt) := by
  refine ⟨?_, ?_, rfl, rfl, ?_, ?_⟩
  · rcases hfail with h | h <;> subst h <;> rfl
  · rcases hfail with h | h <;> subst h <;> rfl
  · intro cfg st t hm
    unfold userTranscriptCompletedStep
    by_cases hc : cfg.clientOpen
    · simp only [hc, if_true, hm]
      have h := aiSellsUserStep_failed_resp cfg
        (logMessage st "user" t (phaseStr st.currentPhase)) t resp hfail
      simpa [logMessage] using h
    · simp [hc]
  · intro cfg st tr
    unfold transcriptDoneStep
    rcases hfail with h | h <;> subst h <;>
      split <;> (try split) <;>
      simp_all [detectUserSaleOutcome, commitOf_80_default, logMessage] <;>
      (try (split <;> simp_all))

/-- Witness for C9_failure_fallback at a concrete failed call. -/
theorem C9_failure_fallback_witness :
    detectSaleOutcome [⟨"user", "hello"⟩] .netError = defaultErrorResult ∧
    detectUserSaleOutcome [⟨"user", "hello"⟩] "medium" .netError =
      defaultErrorResult :=
  ⟨(C9_failure_fallback [⟨"user", "hello"⟩] "medium" .netError
      (Or.inl rfl)).1,
   (C9_failure_fallback [⟨"user", "hello"⟩] "medium" .netError
      (Or.inl rfl)).2.1⟩

/-- C10: when the client socket is not open at the moment a finalized
user transcript arrives, the whole user-turn body is skipped — nothing
is sent, no message is persisted, no phase update or classifier call
happens, buffered fragments are not flushed — and only the waiting flag
is reset. -/
theorem C10_closed_socket_skip (cfg : Config) (st : SessionState)
    (transcript : String) (resp : UpstreamResponse)
    (h : cfg.clientOpen = false) :
    userTranscriptCompletedStep cfg st transcript resp =
      ⟨{ st with isWaitingForUserTranscript := false }, [], false, []⟩ := by
  simp [userTranscriptCompletedStep, h]

/-- Witness for C10_closed_socket_skip: even a trigger-phrase utterance
changes nothing on a closed socket. -/
theorem C10_witness :
    userTranscriptCompletedStep ⟨.ai_sells, "medium", none, false⟩
        c2State "sell me a pen" .netError =
      ⟨{ c2State with isWaitingForUserTranscript := false }, [], false,
        []⟩ :=
  C10_closed_socket_skip ⟨.ai_sells, "medium", none, false⟩ c2State
    "sell me a pen" .netError rfl

end SellMe
